import Mathlib

/-!
# Verification of the Gaia kinematics service (`src/core/gaia_service.py`)

Shallow embedding of the catalog-query / velocity-transform layer of the
repository.  Floating-point cell values are modelled by the type `Fp`
(`nan` for a missing value / NaN, signed infinities for the IEEE overflow
results of division by zero, and `fin q` for an ordinary finite value,
represented exactly by a rational).  The astropy Galactocentric frame
transform (`SkyCoord.transform_to` / `represent_as` in lines 395-424 of
`gaia_service.py`) and `np.sqrt` are external library calls; they enter the
embedding as parameters (`T`, respectively `s`) of the functions that invoke
them, and theorems assume of them only properties the library documents.
Everything the repository itself computes — the `1000/parallax` distance,
the negative-distance failure of `SkyCoord`, the `v_total` combination, the
`1.0/parallax` kpc distance, the NaN fallback of the `except` branch, the
`df.copy()` aliasing, the query templating, the per-population filters and
the `QueryResult` bookkeeping — is translated directly from the source.
-/

/-- A floating-point cell value of a dataframe column: `nan` (the missing
marker), the two infinities, or a finite value modelled exactly. -/
inductive Fp where
  | nan : Fp
  | inf : Fp
  | ninf : Fp
  | fin : ℚ → Fp
deriving DecidableEq, Repr

namespace Fp

/-- IEEE addition on the modelled values. -/
def fadd : Fp → Fp → Fp
  | nan, _ => nan
  | _, nan => nan
  | inf, ninf => nan
  | ninf, inf => nan
  | inf, _ => inf
  | _, inf => inf
  | ninf, _ => ninf
  | _, ninf => ninf
  | fin x, fin y => fin (x + y)

/-- IEEE squaring (`x**2` on a pandas column). -/
def fsq : Fp → Fp
  | nan => nan
  | inf => inf
  | ninf => inf
  | fin q => fin (q ^ 2)

/-- IEEE division, as numpy/pandas evaluate it on columns: a zero divisor
yields a signed infinity (or NaN for `0/0`), never an exception. -/
def fdiv : Fp → Fp → Fp
  | nan, _ => nan
  | _, nan => nan
  | inf, inf => nan
  | inf, ninf => nan
  | ninf, inf => nan
  | ninf, ninf => nan
  | inf, fin y => if y < 0 then ninf else inf
  | ninf, fin y => if y < 0 then inf else ninf
  | fin _, inf => fin 0
  | fin _, ninf => fin 0
  | fin x, fin y =>
      if y = 0 then (if x = 0 then nan else if x > 0 then inf else ninf)
      else fin (x / y)

/-- `np.sqrt`, with the square root of a nonnegative finite value supplied
by the library function `s` (an external call: numpy). -/
def fsqrt (s : ℚ → ℚ) : Fp → Fp
  | nan => nan
  | inf => inf
  | ninf => nan
  | fin q => if q < 0 then nan else fin (s q)

/-- IEEE absolute value (`np.abs`). -/
def fabs : Fp → Fp
  | nan => nan
  | inf => inf
  | ninf => inf
  | fin q => fin |q|

/-- IEEE `<` comparison: any comparison with NaN is false. -/
def ltB : Fp → Fp → Bool
  | nan, _ => false
  | _, nan => false
  | ninf, ninf => false
  | ninf, _ => true
  | _, ninf => false
  | inf, _ => false
  | fin _, inf => true
  | fin x, fin y => decide (x < y)

/-- `a > b` on columns. -/
def gtB (a b : Fp) : Bool := ltB b a

/-- Is the value an ordinary finite number? -/
def isFin : Fp → Bool
  | fin _ => true
  | _ => false

/-- `np.any(value < 0)` as astropy's `Distance` evaluates it per element:
true exactly for negative finite values and `-inf` (NaN compares false). -/
def isNegF : Fp → Bool
  | fin q => decide (q < 0)
  | ninf => true
  | _ => false

end Fp

/-- One raw catalog row (`StarRecord`): the columns the kinematics layer
reads.  Identity is `source_id`; the astrometric/spectroscopic cells are
`Fp` values (absent catalog entries arrive as NaN). -/
structure Row where
  source_id : Int
  ra : Fp
  dec : Fp
  parallax : Fp
  pmra : Fp
  pmdec : Fp
  radial_velocity : Fp
deriving DecidableEq, Repr

/-- The five derived columns `_add_galactic_velocities` attaches. -/
structure DerivedCols where
  vR : Fp
  vPhi : Fp
  vZ : Fp
  vTotal : Fp
  distanceKpc : Fp
deriving DecidableEq, Repr

/-- A dataframe row: the raw columns plus, once the transform has assigned
them, the derived velocity columns (`none` = the columns are not present in
the frame). -/
structure RowV where
  base : Row
  derived : Option DerivedCols
deriving DecidableEq, Repr

/-- A dataframe is its list of rows. -/
abbrev Df := List RowV

/-- The per-row input handed to `SkyCoord(...)` in lines 395-403: ra, dec,
`distance = 1000/parallax` (pc), proper motions, radial velocity. -/
structure CoordIn where
  ra : Fp
  dec : Fp
  dist : Fp
  pmra : Fp
  pmdec : Fp
  rv : Fp
deriving DecidableEq, Repr

/-- Build the `SkyCoord` input of one row (line 395-403). -/
def coordInOf (r : Row) : CoordIn :=
  ⟨r.ra, r.dec, Fp.fdiv (Fp.fin 1000) r.parallax, r.pmra, r.pmdec,
    r.radial_velocity⟩

/-- The columns written by the `except` branch (lines 436-438): every
derived column set to NaN. -/
def allNanDerived : DerivedCols :=
  ⟨Fp.nan, Fp.nan, Fp.nan, Fp.nan, Fp.nan⟩

/-- Mark every row of a frame with the NaN derived columns. -/
def markAllNan (df : Df) : Df :=
  df.map (fun r => { r with derived := some allNanDerived })

/-- The external Galactocentric transform (astropy): from the batch of
`SkyCoord` inputs to the three cylindrical velocity columns
(`d_rho`, `rho*d_phi`, `d_z`), in km/s.  `none` models a library-level
failure of `transform_to`/`represent_as`. -/
abbrev GalcenT := List CoordIn → Option (List (Fp × Fp × Fp))

/-- The success-branch row construction (lines 419-432): given a row
paired with its transform output `(d_rho, rho*d_phi, d_z)`, attach
`V_R`, `V_phi`, `V_z`, `v_total = np.sqrt(V_R**2 + V_phi**2 + V_z**2)`
and `distance_kpc = 1.0 / parallax`. -/
def successRow (s : ℚ → ℚ) (p : RowV × (Fp × Fp × Fp)) : RowV :=
  let d : DerivedCols :=
    ⟨p.2.1, p.2.2.1, p.2.2.2,
     Fp.fsqrt s
       (Fp.fadd (Fp.fadd (Fp.fsq p.2.1) (Fp.fsq p.2.2.1))
         (Fp.fsq p.2.2.2)),
     Fp.fdiv (Fp.fin 1) p.1.base.parallax⟩
  { p.1 with derived := some d }

/-- `_add_galactic_velocities` (lines 383-440), with the external calls as
parameters (`s` = `np.sqrt` on nonnegative finite values, `T` = the astropy
frame transform).  The returned pair is `(result, caller's object after the
call)`: Python passes the dataframe by reference, and the `except` branch
(lines 434-438) runs before `df = df.copy()` (line 419) when `SkyCoord` or
the transform raises, so in that case the NaN columns are written into the
caller's own object, which is also what is returned.  `SkyCoord` raises
`ValueError` when any distance is negative (astropy `Distance`), which is
the in-repository failure mode; a batch whose transform output does not
match the frame length would fail at the column assignment (after the
copy), also landing in the `except` branch. -/
def add_galactic_velocities (s : ℚ → ℚ) (T : GalcenT) (df : Df) :
    Df × Df :=
  if df.length = 0 then (df, df)
  else
    let ins := df.map (fun r => coordInOf r.base)
    if ins.any (fun c => c.dist.isNegF) then
      -- SkyCoord construction raises; except branch, before the copy:
      -- the caller's object itself receives the NaN columns.
      (markAllNan df, markAllNan df)
    else
      match T ins with
      | none =>
          -- transform failure, still before the copy
          (markAllNan df, markAllNan df)
      | some vels =>
          if vels.length = df.length then
            let res := (df.zip vels).map (successRow s)
            (res, df)
          else
            -- column assignment raises on the copy; caller unchanged
            (markAllNan df, df)

/-- Read a derived column of a row (`df['V_phi']` etc.).  In every flow of
the service the derived columns have been assigned by
`add_galactic_velocities` before they are read; the NaN default only keeps
the accessor total. -/
def dOf (r : RowV) : DerivedCols := r.derived.getD allNanDerived

/-- The Python exceptions the service raises. -/
inductive PyErr where
  | valueError (msg : String)
  | runtimeError (msg : String)
  | zeroDivisionError (msg : String)
deriving DecidableEq, Repr

/-- Container for query results with metadata (lines 20-26). -/
structure QueryResult where
  data : Df
  query : String
  row_count : Nat
  description : String
deriving DecidableEq, Repr

/-- The mutable state of a `GaiaService` instance: the cached last query
result (line 47). -/
structure ServiceState where
  last_result : Option QueryResult
deriving DecidableEq, Repr

/-- The external archive boundary (`Gaia.launch_job` + `get_results` +
`to_pandas`): an ADQL string to rows, or a failure message. -/
abbrev Archive := String → Except String Df

/-- Python float division (`1000.0 / distance_pc`): raises
`ZeroDivisionError` on a zero divisor, unlike the numpy column division. -/
def pyFloatDiv (x y : ℚ) : Except PyErr ℚ :=
  if y = 0 then .error (.zeroDivisionError "float division by zero")
  else .ok (x / y)

/-- `config.gaia_table` default. -/
def gaia_table : String := "gaiadr3.gaia_source"

/-- `config.default_query_results` default. -/
def default_query_results : Nat := 1000

/-- `execute_adql` (lines 49-74): run the job; on success cache and return
the packaged result, on any failure re-raise as a `RuntimeError` carrying
the underlying message, leaving the cache untouched. -/
def execute_adql (run : Archive) (query : String) (st : ServiceState) :
    Except PyErr QueryResult × ServiceState :=
  match run query with
  | .error e => (.error (.runtimeError ("ADQL query failed: " ++ e)), st)
  | .ok df =>
      let qr : QueryResult :=
        ⟨df, query, df.length,
         "Query returned " ++ toString df.length ++ " rows"⟩
      (.ok qr, { last_result := some qr })

/-- `get_last_result` (lines 442-444). -/
def get_last_result (st : ServiceState) : Option QueryResult :=
  st.last_result

/-- The query text of `search_cone` (lines 97-111). -/
def coneQueryText (limit : Nat) (ra dec radius : ℚ) : String :=
  "SELECT TOP " ++ toString limit ++
  " source_id, ra, dec, parallax, parallax_error, pmra, pmdec," ++
  " radial_velocity, phot_g_mean_mag, bp_rp, l, b FROM " ++ gaia_table ++
  " WHERE 1=CONTAINS(POINT(\x27ICRS\x27, ra, dec), CIRCLE(\x27ICRS\x27, " ++
  toString ra ++ ", " ++ toString dec ++ ", " ++ toString radius ++
  ")) AND parallax IS NOT NULL AND parallax > 0 ORDER BY parallax DESC"

/-- The query text of `search_solar_neighborhood` (lines 135-147). -/
def solarQueryText (limit : Nat) (minParallax : ℚ) : String :=
  "SELECT TOP " ++ toString limit ++
  " source_id, ra, dec, parallax, parallax_error, pmra, pmdec," ++
  " radial_velocity, phot_g_mean_mag, bp_rp, l, b, ruwe FROM " ++
  gaia_table ++ " WHERE parallax > " ++ toString minParallax ++
  " AND parallax_over_error > 10 AND ruwe < 1.4 ORDER BY parallax DESC"

/-- The query text of `search_hypervelocity_stars` (lines 180-193);
`min_pm` is the fixed literal 20 of line 178. -/
def hvQueryText (limit : Nat) (minParallax : ℚ) : String :=
  "SELECT TOP " ++ toString limit ++
  " source_id, ra, dec, parallax, parallax_error, pmra, pmdec," ++
  " pmra_error, pmdec_error, radial_velocity, radial_velocity_error," ++
  " phot_g_mean_mag, bp_rp, l, b FROM " ++ gaia_table ++
  " WHERE parallax > " ++ toString minParallax ++
  " AND parallax_over_error > 5 AND radial_velocity IS NOT NULL" ++
  " AND SQRT(pmra*pmra + pmdec*pmdec) > 20" ++
  " ORDER BY SQRT(pmra*pmra + pmdec*pmdec) DESC"

/-- The query text of `search_stellar_stream` (lines 241-253). -/
def streamQueryText (limit : Nat) (adqlFilter : String) : String :=
  "SELECT TOP " ++ toString limit ++
  " source_id, ra, dec, parallax, parallax_error, pmra, pmdec," ++
  " radial_velocity, phot_g_mean_mag, bp_rp, l, b FROM " ++ gaia_table ++
  " WHERE parallax > 0.2 AND parallax_over_error > 5" ++
  " AND radial_velocity IS NOT NULL " ++ adqlFilter ++
  " ORDER BY parallax DESC"

/-- The query text of `search_accreted_halo` (lines 289-301); the TOP
argument is `limit * 2` (line 290). -/
def haloQueryText (limitTimesTwo : Nat) : String :=
  "SELECT TOP " ++ toString limitTimesTwo ++
  " source_id, ra, dec, parallax, parallax_error, pmra, pmdec," ++
  " radial_velocity, phot_g_mean_mag, bp_rp, l, b FROM " ++ gaia_table ++
  " WHERE parallax > 0.5 AND parallax_over_error > 5" ++
  " AND radial_velocity IS NOT NULL AND ABS(b) > 30" ++
  " ORDER BY SQRT(pmra*pmra + pmdec*pmdec) DESC"

/-- One entry of the stream registry (lines 331-379).  Every entry of the
source dict carries all three fields, so the `if 'velocity_filter' in
stream_criteria` test of line 262 is always true. -/
structure StreamCriteria where
  adql_filter : String
  description : String
  velocity_filter : Df → Df

/-- Nyx post-fetch predicate (lines 338-341). -/
def nyx_velocity_filter (df : Df) : Df :=
  df.filter (fun r =>
    Fp.gtB (dOf r).vPhi (Fp.fin 100) &&
    (Fp.gtB (dOf r).vR (Fp.fin 100) && Fp.ltB (dOf r).vR (Fp.fin 200)))

/-- GSE post-fetch predicate (lines 349-352 and 360-363). -/
def gse_velocity_filter (df : Df) : Df :=
  df.filter (fun r =>
    Fp.ltB (Fp.fabs (dOf r).vPhi) (Fp.fin 50) &&
    Fp.gtB (Fp.fabs (dOf r).vR) (Fp.fin 150))

/-- Helmi post-fetch predicate (lines 368-370). -/
def helmi_velocity_filter (df : Df) : Df :=
  df.filter (fun r =>
    Fp.gtB (dOf r).vZ (Fp.fin 150) || Fp.ltB (dOf r).vZ (Fp.fin (-150)))

/-- Sequoia post-fetch predicate (lines 375-377). -/
def sequoia_velocity_filter (df : Df) : Df :=
  df.filter (fun r => Fp.ltB (dOf r).vPhi (Fp.fin (-150)))

/-- The GSE description, shared by its two registry keys. -/
def gseDescription : String :=
  "Gaia-Sausage-Enceladus candidates - major merger remnant " ++
  "with highly radial orbits"

/-- `_get_stream_criteria` (lines 328-381): `streams.get(stream_name)` on
the five-key dict. -/
def get_stream_criteria (stream_name : String) : Option StreamCriteria :=
  if stream_name = "nyx" then
    some ⟨"AND b > -30 AND b < 30",
      "Nyx stream candidates - prograde structure near the disk, " ++
      "discovered by Necib et al. 2020",
      nyx_velocity_filter⟩
  else if stream_name = "gse" then
    some ⟨"", gseDescription, gse_velocity_filter⟩
  else if stream_name = "gaia-sausage-enceladus" then
    some ⟨"", gseDescription, gse_velocity_filter⟩
  else if stream_name = "helmi" then
    some ⟨"",
      "Helmi stream candidates - tidally disrupted dwarf galaxy",
      helmi_velocity_filter⟩
  else if stream_name = "sequoia" then
    some ⟨"", "Sequoia candidates - retrograde merger remnant",
      sequoia_velocity_filter⟩
  else none

/-- Python `str.lower()` (line 230), character by character; agrees with
Python on the ASCII stream keys involved. -/
def pyLower (str : String) : String := ⟨str.data.map Char.toLower⟩

/-- Outcome of one service search call: the returned value or raised
exception, the service state after the call, and the list of ADQL queries
that were launched against the archive during the call. -/
abbrev SearchOut := Except PyErr QueryResult × ServiceState × List String

/-- `search_cone` (lines 76-115).  The `result.description = ...`
assignment mutates the very object cached as `_last_result`, so the state
holds the updated result. -/
def search_cone (run : Archive) (ra dec radius : ℚ) (limit : Option Nat)
    (st : ServiceState) : SearchOut :=
  let lim := limit.getD default_query_results
  let query := coneQueryText lim ra dec radius
  match execute_adql run query st with
  | (.error e, st1) => (.error e, st1, [query])
  | (.ok r, _) =>
      let desc := "Cone search: " ++ toString radius ++ "° around (RA=" ++
        toString ra ++ "°, Dec=" ++ toString dec ++ "°)"
      let r1 := { r with description := desc }
      (.ok r1, { last_result := some r1 }, [query])

/-- `search_solar_neighborhood` (lines 117-151).  The computation
`min_parallax = 1000.0 / distance_pc` (line 133) raises
`ZeroDivisionError` for `distance_pc = 0`, before any query text exists. -/
def search_solar_neighborhood (run : Archive) (distance_pc : ℚ)
    (limit : Option Nat) (st : ServiceState) : SearchOut :=
  let lim := limit.getD default_query_results
  match pyFloatDiv 1000 distance_pc with
  | .error e => (.error e, st, [])
  | .ok min_parallax =>
      let query := solarQueryText lim min_parallax
      match execute_adql run query st with
      | (.error e, st1) => (.error e, st1, [query])
      | (.ok r, _) =>
          let desc :=
            "Solar neighborhood within " ++ toString distance_pc ++ " pc"
          let r1 := { r with description := desc }
          (.ok r1, { last_result := some r1 }, [query])

/-- `search_hypervelocity_stars` (lines 153-210): fetch, add velocities,
keep rows with `v_total > min_velocity_kms`, recount. -/
def search_hypervelocity_stars (s : ℚ → ℚ) (T : GalcenT) (run : Archive)
    (distance_kpc min_velocity_kms : ℚ) (limit : Option Nat)
    (st : ServiceState) : SearchOut :=
  let lim := limit.getD (min 500 default_query_results)
  match pyFloatDiv 1 distance_kpc with
  | .error e => (.error e, st, [])
  | .ok min_parallax =>
      let query := hvQueryText lim min_parallax
      match execute_adql run query st with
      | (.error e, st1) => (.error e, st1, [query])
      | (.ok r, _) =>
          let r1 :=
            if r.data.length > 0 then
              let dv := (add_galactic_velocities s T r.data).1
              let df := dv.filter (fun row =>
                Fp.gtB (dOf row).vTotal (Fp.fin min_velocity_kms))
              { r with data := df, row_count := df.length }
            else r
          let desc :=
            "Hypervelocity candidates within " ++ toString distance_kpc ++
            " kpc, v > " ++ toString min_velocity_kms ++ " km/s"
          let r2 := { r1 with description := desc }
          (.ok r2, { last_result := some r2 }, [query])

/-- `search_stellar_stream` (lines 212-267): lower-case the key, look it up
in the registry, raise `ValueError` (before launching any query) when it is
unknown; otherwise fetch, add velocities, apply the stream's post-fetch
predicate, recount. -/
def search_stellar_stream (s : ℚ → ℚ) (T : GalcenT) (run : Archive)
    (stream_name : String) (limit : Option Nat) (st : ServiceState) :
    SearchOut :=
  let lim := limit.getD default_query_results
  let name := pyLower stream_name
  match get_stream_criteria name with
  | none =>
      (.error (.valueError ("Unknown stream: " ++ name ++
        ". Supported: Nyx, GSE, Gaia-Sausage-Enceladus, Helmi, Sequoia")),
       st, [])
  | some crit =>
      let query := streamQueryText lim crit.adql_filter
      match execute_adql run query st with
      | (.error e, st1) => (.error e, st1, [query])
      | (.ok r, _) =>
          let r1 :=
            if r.data.length > 0 then
              let dv := (add_galactic_velocities s T r.data).1
              let df := crit.velocity_filter dv
              { r with data := df, row_count := df.length }
            else r
          let r2 := { r1 with description := crit.description }
          (.ok r2, { last_result := some r2 }, [query])

/-- The retrograde halo mask `result.data['V_phi'] < -50` (line 312). -/
def halo_retro_pred (row : RowV) : Bool :=
  Fp.ltB (dOf row).vPhi (Fp.fin (-50))

/-- The general halo mask
`(np.abs(V_phi) < 100) | (V_phi < -50)` (lines 316-317). -/
def halo_all_pred (row : RowV) : Bool :=
  Fp.ltB (Fp.fabs (dOf row).vPhi) (Fp.fin 100) ||
  Fp.ltB (dOf row).vPhi (Fp.fin (-50))

/-- The retrograde accreted-halo selection (lines 310-313):
`V_phi < -50`, then `head(limit)`. -/
def halo_retrograde_select (lim : Nat) (df : Df) : Df :=
  (df.filter halo_retro_pred).take lim

/-- The general accreted-halo selection (lines 314-318):
`|V_phi| < 100 or V_phi < -50`, then `head(limit)`. -/
def halo_all_select (lim : Nat) (df : Df) : Df :=
  (df.filter halo_all_pred).take lim

/-- `search_accreted_halo` (lines 269-326): fetch `TOP limit*2`, add
velocities, apply the retrograde or general halo selection, recount. -/
def search_accreted_halo (s : ℚ → ℚ) (T : GalcenT) (run : Archive)
    (retrograde_only : Bool) (limit : Option Nat) (st : ServiceState) :
    SearchOut :=
  let lim := limit.getD default_query_results
  let query := haloQueryText (lim * 2)
  match execute_adql run query st with
  | (.error e, st1) => (.error e, st1, [query])
  | (.ok r, _) =>
      let r1 :=
        if r.data.length > 0 then
          let dv := (add_galactic_velocities s T r.data).1
          let df := if retrograde_only then halo_retrograde_select lim dv
                    else halo_all_select lim dv
          { r with data := df, row_count := df.length }
        else r
      let desc := if retrograde_only then
          "Accreted halo stars (retrograde orbits only)"
        else "Accreted halo stars"
      let r2 := { r1 with description := desc }
      (.ok r2, { last_result := some r2 }, [query])

/-! ## Concrete fixtures

Transform stubs (each satisfies the properties theorems assume of the
astropy transform: one output triple per input row) and concrete rows,
used by counterexamples and witnesses. -/

/-- Transform stub returning a constant triple per row. -/
def constT (v : Fp × Fp × Fp) : GalcenT :=
  fun ins => some (ins.map (fun _ => v))

/-- Transform stub propagating each row's radial velocity into all three
outputs; in particular a NaN radial velocity yields NaN outputs, as the
real transform propagates NaN. -/
def rvT : GalcenT := fun ins => some (ins.map (fun c => (c.rv, c.rv, c.rv)))

/-- Transform stub that fails at the library level. -/
def noneT : GalcenT := fun _ => none

/-- Transform stub passing `pmra` through as `V_phi` (with NaN radial and
vertical components), to give rows chosen `V_phi` values. -/
def pmraT : GalcenT :=
  fun ins => some (ins.map (fun c => (Fp.nan, c.pmra, Fp.nan)))

/-- A fully populated row: positive parallax, radial velocity present. -/
def exGood : RowV :=
  ⟨⟨1, Fp.fin 180, Fp.fin 45, Fp.fin 2, Fp.fin 3, Fp.fin 4, Fp.fin 5⟩, none⟩

/-- A row with negative parallax (distance `1000/parallax` is negative). -/
def exNegPar : RowV :=
  ⟨⟨2, Fp.fin 10, Fp.fin 20, Fp.fin (-1), Fp.fin 0, Fp.fin 0, Fp.fin 0⟩,
   none⟩

/-- A row with positive parallax but missing radial velocity. -/
def exNoRv : RowV :=
  ⟨⟨3, Fp.fin 10, Fp.fin 20, Fp.fin 2, Fp.fin 0, Fp.fin 0, Fp.nan⟩, none⟩

/-- Halo fixture: `pmra = 0`, so `V_phi = 0` under `pmraT` (weak rotation,
not retrograde). -/
def exHaloA : RowV :=
  ⟨⟨1, Fp.fin 0, Fp.fin 0, Fp.fin 1, Fp.fin 0, Fp.fin 0, Fp.fin 0⟩, none⟩

/-- Halo fixture: `pmra = -60`, so `V_phi = -60` under `pmraT`
(retrograde, and inside the weak-rotation band). -/
def exHaloB : RowV :=
  ⟨⟨2, Fp.fin 0, Fp.fin 0, Fp.fin 1, Fp.fin (-60), Fp.fin 0, Fp.fin 0⟩,
   none⟩

/-- Archive stub returning the two halo fixture rows. -/
def runHalo : Archive := fun _ => .ok [exHaloA, exHaloB]

/-- Archive stub returning only the retrograde halo fixture row. -/
def runHaloB : Archive := fun _ => .ok [exHaloB]

/-- Archive stub returning no rows. -/
def runEmpty : Archive := fun _ => .ok []

/-- A service state with no cached result. -/
def emptySt : ServiceState := ⟨none⟩

/-- The `source_id` values of a search outcome (empty on a raised
exception). -/
def resultIds (o : SearchOut) : List Int :=
  match o.1 with
  | .ok r => r.data.map (fun x => x.base.source_id)
  | .error _ => []

/-- The five keys of the stream registry. -/
def supported_stream_keys : List String :=
  ["nyx", "gse", "gaia-sausage-enceladus", "helmi", "sequoia"]

/-- The derived columns of a successfully transformed row whose transform
output is the finite triple `(a, b, c)`: all three velocity components
finite, `v_total` the (finite) square root of the sum of squares, and
`distance_kpc = 1.0 / parallax`. -/
def finDerived (s : ℚ → ℚ) (a b c : ℚ) (plx : Fp) : DerivedCols :=
  ⟨Fp.fin a, Fp.fin b, Fp.fin c, Fp.fin (s (a ^ 2 + b ^ 2 + c ^ 2)),
   Fp.fdiv (Fp.fin 1) plx⟩

/-- The derived columns of a successfully transformed row whose transform
output is all-NaN (e.g. a row whose radial velocity is missing): the four
velocity columns are NaN, but `distance_kpc = 1.0 / parallax` is still
computed. -/
def nanVelDerived (plx : Fp) : DerivedCols :=
  ⟨Fp.nan, Fp.nan, Fp.nan, Fp.nan, Fp.fdiv (Fp.fin 1) plx⟩

/-! ## Helper lemmas on the transform -/

/-- Any failure before the internal copy (a negative distance at `SkyCoord`
construction, or a transform failure) makes `_add_galactic_velocities`
return the all-NaN-marked frame, which is also the caller's object. -/
theorem addVel_failure_eq (s : ℚ → ℚ) (T : GalcenT) (df : Df)
    (hne : df.length ≠ 0)
    (h : (df.map (fun r => coordInOf r.base)).any (fun c => c.dist.isNegF)
           = true
       ∨ T (df.map (fun r => coordInOf r.base)) = none) :
    add_galactic_velocities s T df = (markAllNan df, markAllNan df) := by
  unfold add_galactic_velocities
  rcases h with h | h
  · simp [hne, h]
  · rcases hb : (df.map (fun r => coordInOf r.base)).any
        (fun c => c.dist.isNegF) with _ | _
    · simp [hne, hb, h]
    · simp [hne, hb]

/-- On a batch with no negative distance whose transform returns one triple
per row, `_add_galactic_velocities` builds the success rows on a copy and
leaves the caller's frame untouched. -/
theorem addVel_success_eq (s : ℚ → ℚ) (T : GalcenT) (df : Df)
    (vels : List (Fp × Fp × Fp))
    (hneg : (df.map (fun r => coordInOf r.base)).any (fun c => c.dist.isNegF)
              = false)
    (hT : T (df.map (fun r => coordInOf r.base)) = some vels)
    (hlen : vels.length = df.length) :
    add_galactic_velocities s T df =
      ((df.zip vels).map (successRow s), df) := by
  unfold add_galactic_velocities
  by_cases h0 : df.length = 0
  · have hdf : df = [] := List.length_eq_zero.mp h0
    subst hdf
    have hv : vels = [] := List.length_eq_zero.mp hlen
    subst hv
    simp
  · simp [h0, hneg, hT, hlen]

/-- Indexed form of the success branch. -/
theorem addVel_success_getElem (s : ℚ → ℚ) (T : GalcenT) (df : Df)
    (vels : List (Fp × Fp × Fp)) (i : Nat) (r : RowV) (v : Fp × Fp × Fp)
    (hneg : (df.map (fun x => coordInOf x.base)).any (fun c => c.dist.isNegF)
              = false)
    (hT : T (df.map (fun x => coordInOf x.base)) = some vels)
    (hlen : vels.length = df.length)
    (hr : df[i]? = some r) (hv : vels[i]? = some v) :
    (add_galactic_velocities s T df).1[i]? = some (successRow s (r, v)) := by
  rw [addVel_success_eq s T df vels hneg hT hlen]
  simp only [List.getElem?_map]
  have hz : (df.zip vels)[i]? = some (r, v) :=
    List.getElem?_zip_eq_some.mpr ⟨hr, hv⟩
  rw [hz]
  rfl

/-- The success row at a finite transform output, written out: the sum of
squares is nonnegative, so `np.sqrt` yields the finite value `s` of it. -/
theorem successRow_finite (s : ℚ → ℚ) (r : RowV) (a b c : ℚ) :
    successRow s (r, (Fp.fin a, Fp.fin b, Fp.fin c)) =
      { r with derived := some (finDerived s a b c r.base.parallax) } := by
  have hnn : ¬ (a ^ 2 + b ^ 2 + c ^ 2 < 0) := not_lt.mpr (by positivity)
  simp [successRow, finDerived, Fp.fsq, Fp.fadd, Fp.fsqrt, hnn]

/-- `1.0 / parallax` at a nonzero finite parallax. -/
theorem fdiv_one_fin (p : ℚ) (hp : p ≠ 0) :
    Fp.fdiv (Fp.fin 1) (Fp.fin p) = Fp.fin (1 / p) := by
  simp [Fp.fdiv, hp]

/-- `1000 / parallax` at a nonzero finite parallax. -/
theorem fdiv_thousand_fin (p : ℚ) (hp : p ≠ 0) :
    Fp.fdiv (Fp.fin 1000) (Fp.fin p) = Fp.fin (1000 / p) := by
  simp [Fp.fdiv, hp]

/-- A key outside the registry yields no criteria. -/
theorem get_stream_criteria_none (k : String)
    (h : k ∉ supported_stream_keys) : get_stream_criteria k = none := by
  unfold get_stream_criteria
  simp only [supported_stream_keys, List.mem_cons, List.mem_singleton,
    not_or] at h
  obtain ⟨h1, h2, h3, h4, h5⟩ := h
  simp [h1, h2, h3, h4, h5]

/-- **C3**: for every stream key whose lower-cased form is outside the
supported set {nyx, gse, gaia-sausage-enceladus, helmi, sequoia},
`search_stellar_stream` raises a `ValueError` whose message names the
(lower-cased) unsupported key and lists the supported keys, the service
state is unchanged, and no archive query is executed. -/
theorem C3_unknown_stream_rejected (s : ℚ → ℚ) (T : GalcenT)
    (run : Archive) (stream_name : String) (limit : Option Nat)
    (st : ServiceState)
    (h : pyLower stream_name ∉ supported_stream_keys) :
    search_stellar_stream s T run stream_name limit st =
      (.error (.valueError ("Unknown stream: " ++ pyLower stream_name ++
        ". Supported: Nyx, GSE, Gaia-Sausage-Enceladus, Helmi, Sequoia")),
       st, []) := by
  unfold search_stellar_stream
  simp [get_stream_criteria_none _ h]

/-- Witness for C3 at the key `"Andromeda"`. -/
theorem C3_witness :
    search_stellar_stream id noneT runEmpty "Andromeda" none emptySt =
      (.error (.valueError ("Unknown stream: " ++ pyLower "Andromeda" ++
        ". Supported: Nyx, GSE, Gaia-Sausage-Enceladus, Helmi, Sequoia")),
       emptySt, []) :=
  C3_unknown_stream_rejected id noneT runEmpty "Andromeda" none emptySt
    (by decide)

/-- **C4**: `search_solar_neighborhood` called with `distance_pc = 0`
fails synchronously (a `ZeroDivisionError` at the
`min_parallax = 1000.0 / distance_pc` computation) before any query text
is built: no infinite/NaN parallax threshold is produced, the state is
unchanged, and no archive query is executed. -/
theorem C4_zero_distance_rejected (run : Archive) (limit : Option Nat)
    (st : ServiceState) :
    search_solar_neighborhood run 0 limit st =
      (.error (.zeroDivisionError "float division by zero"), st, []) := rfl

/-- **C9**: `execute_adql` is atomic with respect to the cached last
result: on an archive failure it raises a single `RuntimeError` carrying
the underlying message and leaves `get_last_result` unchanged; on success
the cache is replaced by exactly the returned `QueryResult`. -/
theorem C9_execute_adql_atomic :
    (∀ (run : Archive) (q : String) (st : ServiceState) (e : String),
      run q = .error e →
        execute_adql run q st =
          (.error (.runtimeError ("ADQL query failed: " ++ e)), st) ∧
        get_last_result (execute_adql run q st).2 = get_last_result st) ∧
    (∀ (run : Archive) (q : String) (st : ServiceState) (df : Df),
      run q = .ok df →
        ∃ qr : QueryResult,
          execute_adql run q st = (.ok qr, { last_result := some qr }) ∧
          qr.data = df ∧ qr.row_count = df.length ∧
          get_last_result (execute_adql run q st).2 = some qr) := by
  constructor
  · intro run q st e h
    constructor
    · unfold execute_adql
      rw [h]
    · unfold execute_adql get_last_result
      rw [h]
  · intro run q st df h
    refine ⟨⟨df, q, df.length,
      "Query returned " ++ toString df.length ++ " rows"⟩, ?_, rfl, rfl, ?_⟩
    · unfold execute_adql
      rw [h]
    · unfold execute_adql get_last_result
      rw [h]

/-- Witness for C9: a failing archive call leaves the cache, a succeeding
one replaces it. -/
theorem C9_witness :
    (execute_adql (fun _ => .error "network down") "SELECT 1" emptySt =
      (.error (.runtimeError ("ADQL query failed: " ++ "network down")),
       emptySt) ∧
     get_last_result
       (execute_adql (fun _ => .error "network down") "SELECT 1"
         emptySt).2 = get_last_result emptySt) ∧
    (∃ qr : QueryResult,
      execute_adql runEmpty "SELECT 1" emptySt =
        (.ok qr, { last_result := some qr }) ∧
      qr.data = [] ∧ qr.row_count = ([] : Df).length ∧
      get_last_result (execute_adql runEmpty "SELECT 1" emptySt).2 =
        some qr) :=
  ⟨C9_execute_adql_atomic.1 (fun _ => .error "network down") "SELECT 1"
      emptySt "network down" rfl,
   C9_execute_adql_atomic.2 runEmpty "SELECT 1" emptySt [] rfl⟩

/-- **C6**: when the frame transform cannot be computed for a (nonempty)
batch, `_add_galactic_velocities` does not raise: it returns the frame
with every row still present (same length, bases preserved) and all five
derived columns set to the NaN missing marker, which is not zero. -/
theorem C6_transform_failure_degrades (s : ℚ → ℚ) (T : GalcenT) (df : Df)
    (hne : df.length ≠ 0)
    (hT : T (df.map (fun r => coordInOf r.base)) = none) :
    (add_galactic_velocities s T df).1 = markAllNan df ∧
    (markAllNan df).length = df.length ∧
    (∀ (i : Nat) (r : RowV), df[i]? = some r →
      (markAllNan df)[i]? = some { r with derived := some allNanDerived }) ∧
    allNanDerived = ⟨Fp.nan, Fp.nan, Fp.nan, Fp.nan, Fp.nan⟩ ∧
    Fp.nan ≠ Fp.fin 0 := by
  refine ⟨?_, ?_, ?_, rfl, by simp⟩
  · rw [addVel_failure_eq s T df hne (Or.inr hT)]
  · simp [markAllNan]
  · intro i r hr
    simp [markAllNan, List.getElem?_map, hr]

/-- Witness for C6 at a singleton batch and a failing transform. -/
theorem C6_witness :
    (add_galactic_velocities id noneT [exGood]).1 = markAllNan [exGood] ∧
    (markAllNan [exGood]).length = ([exGood] : Df).length ∧
    (∀ (i : Nat) (r : RowV), ([exGood] : Df)[i]? = some r →
      (markAllNan [exGood])[i]? =
        some { r with derived := some allNanDerived }) ∧
    allNanDerived = ⟨Fp.nan, Fp.nan, Fp.nan, Fp.nan, Fp.nan⟩ ∧
    Fp.nan ≠ Fp.fin 0 :=
  C6_transform_failure_degrades id noneT [exGood] (by decide) rfl

/-- **C7**: for every row with finite nonzero positive parallax `p` in a
batch on which the transform succeeds, the emitted `distance_kpc` column
is exactly `1/p` (parallax in mas), computed by its own reciprocal
formula, while the phase-space coordinate distance of the same row is the
separate parsec-based `1000/p`. -/
theorem C7_distance_kpc_reciprocal (s : ℚ → ℚ) (T : GalcenT) (df : Df)
    (vels : List (Fp × Fp × Fp)) (i : Nat) (r : RowV) (v : Fp × Fp × Fp)
    (p : ℚ)
    (hneg : (df.map (fun x => coordInOf x.base)).any (fun c => c.dist.isNegF)
              = false)
    (hT : T (df.map (fun x => coordInOf x.base)) = some vels)
    (hlen : vels.length = df.length)
    (hr : df[i]? = some r) (hv : vels[i]? = some v)
    (hp : r.base.parallax = Fp.fin p) (hpos : 0 < p) :
    ∃ d : DerivedCols,
      (add_galactic_velocities s T df).1[i]? =
        some { r with derived := some d } ∧
      d.distanceKpc = Fp.fin (1 / p) ∧
      (coordInOf r.base).dist = Fp.fin (1000 / p) := by
  have hne : p ≠ 0 := ne_of_gt hpos
  have hrow := addVel_success_getElem s T df vels i r v hneg hT hlen hr hv
  refine ⟨⟨v.1, v.2.1, v.2.2,
    Fp.fsqrt s (Fp.fadd (Fp.fadd (Fp.fsq v.1) (Fp.fsq v.2.1))
      (Fp.fsq v.2.2)), Fp.fdiv (Fp.fin 1) r.base.parallax⟩, ?_, ?_, ?_⟩
  · rw [hrow]
    rfl
  · simp only [hp]
    exact fdiv_one_fin p hne
  · simp only [coordInOf, hp]
    exact fdiv_thousand_fin p hne

unseal Rat.mul Rat.inv in
/-- Witness for C7 at a singleton batch with parallax 2 mas. -/
theorem C7_witness :
    ∃ d : DerivedCols,
      (add_galactic_velocities id
        (constT (Fp.fin 10, Fp.fin 20, Fp.fin 20)) [exGood]).1[0]? =
        some { exGood with derived := some d } ∧
      d.distanceKpc = Fp.fin (1 / 2) ∧
      (coordInOf exGood.base).dist = Fp.fin (1000 / 2) :=
  C7_distance_kpc_reciprocal id (constT (Fp.fin 10, Fp.fin 20, Fp.fin 20))
    [exGood] [(Fp.fin 10, Fp.fin 20, Fp.fin 20)] 0 exGood
    (Fp.fin 10, Fp.fin 20, Fp.fin 20) 2 (by decide) rfl rfl rfl rfl rfl
    (by decide)

/-- **C1** (amended): in a batch with no negative-parallax row on which
the frame transform succeeds, every row whose transform output is a finite
triple — as astropy produces for rows with positive parallax and all
kinematic inputs present — receives finite, non-missing `V_R`, `V_phi`,
`V_z` and a finite `v_total` equal to `sqrt(V_R^2 + V_phi^2 + V_z^2)`
exactly (real-valued model).  The original claim fails for batches that
also contain a negative-parallax row (see the counterexample): the whole
batch then degrades to NaN, including rows with positive parallax and
radial velocity present. -/
theorem C1_velocity_columns_finite (s : ℚ → ℚ) (T : GalcenT) (df : Df)
    (vels : List (Fp × Fp × Fp)) (i : Nat) (r : RowV) (a b c p : ℚ)
    (hneg : (df.map (fun x => coordInOf x.base)).any (fun c => c.dist.isNegF)
              = false)
    (hT : T (df.map (fun x => coordInOf x.base)) = some vels)
    (hlen : vels.length = df.length)
    (hr : df[i]? = some r)
    (hp : r.base.parallax = Fp.fin p) (hpos : 0 < p)
    (hrv : r.base.radial_velocity.isFin = true)
    (hv : vels[i]? = some (Fp.fin a, Fp.fin b, Fp.fin c)) :
    (add_galactic_velocities s T df).1[i]? =
      some { r with derived := some (finDerived s a b c r.base.parallax) } ∧
    (finDerived s a b c r.base.parallax).vR.isFin = true ∧
    (finDerived s a b c r.base.parallax).vPhi.isFin = true ∧
    (finDerived s a b c r.base.parallax).vZ.isFin = true ∧
    (finDerived s a b c r.base.parallax).vTotal =
      Fp.fin (s (a ^ 2 + b ^ 2 + c ^ 2)) ∧
    (finDerived s a b c r.base.parallax).vTotal.isFin = true ∧
    (finDerived s a b c r.base.parallax).vTotal =
      Fp.fsqrt s (Fp.fadd (Fp.fadd (Fp.fsq (Fp.fin a)) (Fp.fsq (Fp.fin b)))
        (Fp.fsq (Fp.fin c))) := by
  have hrow := addVel_success_getElem s T df vels i r
    (Fp.fin a, Fp.fin b, Fp.fin c) hneg hT hlen hr hv
  rw [successRow_finite] at hrow
  have hnn : ¬ (a ^ 2 + b ^ 2 + c ^ 2 < 0) := not_lt.mpr (by positivity)
  refine ⟨hrow, rfl, rfl, rfl, rfl, rfl, ?_⟩
  simp [finDerived, Fp.fsq, Fp.fadd, Fp.fsqrt, hnn]

unseal Rat.mul Rat.inv in
/-- Witness for C1 (amended) at a singleton batch with finite transform
output `(10, 20, 20)`. -/
theorem C1_witness :
    (add_galactic_velocities id
      (constT (Fp.fin 10, Fp.fin 20, Fp.fin 20)) [exGood]).1[0]? =
      some { exGood with
             derived := some (finDerived id 10 20 20 exGood.base.parallax) } ∧
    (finDerived id 10 20 20 exGood.base.parallax).vR.isFin = true ∧
    (finDerived id 10 20 20 exGood.base.parallax).vPhi.isFin = true ∧
    (finDerived id 10 20 20 exGood.base.parallax).vZ.isFin = true ∧
    (finDerived id 10 20 20 exGood.base.parallax).vTotal =
      Fp.fin (id ((10 : ℚ) ^ 2 + 20 ^ 2 + 20 ^ 2)) ∧
    (finDerived id 10 20 20 exGood.base.parallax).vTotal.isFin = true ∧
    (finDerived id 10 20 20 exGood.base.parallax).vTotal =
      Fp.fsqrt id (Fp.fadd (Fp.fadd (Fp.fsq (Fp.fin 10))
        (Fp.fsq (Fp.fin 20))) (Fp.fsq (Fp.fin 20))) :=
  C1_velocity_columns_finite id (constT (Fp.fin 10, Fp.fin 20, Fp.fin 20))
    [exGood] [(Fp.fin 10, Fp.fin 20, Fp.fin 20)] 0 exGood 10 20 20 2
    (by decide) rfl rfl rfl rfl (by decide) rfl rfl

unseal Rat.mul Rat.inv Rat.add in
/-- Counterexample to **C1** as stated: in the two-row batch
`[exGood, exNegPar]`, the first row has parallax 2 > 0 and radial
velocity 5 present, yet its `V_R` is NaN (not finite): the second row's
negative parallax makes `SkyCoord` raise for the whole batch, and the
`except` branch floods every row with NaN. -/
theorem C1_counterexample :
    exGood.base.parallax = Fp.fin 2 ∧ (0 : ℚ) < 2 ∧
    exGood.base.radial_velocity = Fp.fin 5 ∧ (Fp.fin 5).isFin = true ∧
    exNegPar.base.parallax = Fp.fin (-1) ∧
    (add_galactic_velocities id (constT (Fp.fin 10, Fp.fin 20, Fp.fin 20))
       [exGood, exNegPar]).1.map (fun r => (dOf r).vR) =
      [Fp.nan, Fp.nan] ∧
    Fp.nan.isFin = false := by
  refine ⟨rfl, by decide, rfl, rfl, rfl, ?_, rfl⟩
  decide

/-- A successfully transformed row whose transform output is all-NaN still
gets a computed `distance_kpc`. -/
theorem successRow_nan (s : ℚ → ℚ) (r : RowV) :
    successRow s (r, (Fp.nan, Fp.nan, Fp.nan)) =
      { r with derived := some (nanVelDerived r.base.parallax) } := rfl

unseal Rat.mul Rat.inv Rat.add in
/-- Counterexample to **C2** as stated: the single-row table `[exNoRv]`
(parallax 2 > 0, radial velocity missing) is processed without batch
failure, and its `distance_kpc` derived column is the numeric value `1/2`,
not the NaN missing marker. -/
theorem C2_counterexample :
    exNoRv.base.parallax = Fp.fin 2 ∧
    exNoRv.base.radial_velocity = Fp.nan ∧
    (add_galactic_velocities id rvT [exNoRv]).1.map
      (fun r => (dOf r).distanceKpc) = [Fp.fin (1 / 2)] ∧
    Fp.fin (1 / 2) ≠ Fp.nan := by
  refine ⟨rfl, rfl, ?_, by decide⟩
  decide

/-- **C2** (amended): a row with negative parallax makes the whole batch
fail, so every row of the table (that one included) gets the NaN missing
marker in all five derived columns; but in a batch that succeeds, a row
with missing radial velocity gets the NaN marker only in `V_R`, `V_phi`,
`V_z` and `v_total` (by NaN propagation through the transform), while its
`distance_kpc` is still the numeric value `1/parallax`. -/
theorem C2_unconvertible_rows :
    (∀ (s : ℚ → ℚ) (T : GalcenT) (df : Df) (r : RowV), r ∈ df →
      (coordInOf r.base).dist.isNegF = true →
      add_galactic_velocities s T df = (markAllNan df, markAllNan df)) ∧
    (∀ (s : ℚ → ℚ) (T : GalcenT) (df : Df) (vels : List (Fp × Fp × Fp))
       (i : Nat) (r : RowV) (p : ℚ),
      (df.map (fun x => coordInOf x.base)).any (fun c => c.dist.isNegF)
          = false →
      T (df.map (fun x => coordInOf x.base)) = some vels →
      vels.length = df.length →
      df[i]? = some r →
      r.base.radial_velocity = Fp.nan →
      vels[i]? = some (Fp.nan, Fp.nan, Fp.nan) →
      r.base.parallax = Fp.fin p → p ≠ 0 →
      (add_galactic_velocities s T df).1[i]? =
        some { r with derived := some (nanVelDerived r.base.parallax) } ∧
      nanVelDerived r.base.parallax =
        ⟨Fp.nan, Fp.nan, Fp.nan, Fp.nan, Fp.fin (1 / p)⟩ ∧
      Fp.fin (1 / p) ≠ Fp.nan) := by
  constructor
  · intro s T df r hmem hneg
    have hne : df.length ≠ 0 := by
      intro h0
      rw [List.length_eq_zero.mp h0] at hmem
      exact (List.not_mem_nil r) hmem
    refine addVel_failure_eq s T df hne (Or.inl ?_)
    exact List.any_eq_true.mpr
      ⟨coordInOf r.base, List.mem_map_of_mem _ hmem, hneg⟩
  · intro s T df vels i r p hneg hT hlen hr hrv hv hp hp0
    have hrow := addVel_success_getElem s T df vels i r
      (Fp.nan, Fp.nan, Fp.nan) hneg hT hlen hr hv
    rw [successRow_nan] at hrow
    refine ⟨hrow, ?_, by simp⟩
    simp [nanVelDerived, hp, fdiv_one_fin p hp0]

unseal Rat.mul Rat.inv in
/-- Witness for C2 (amended): the negative-parallax batch degrades whole,
and the missing-radial-velocity row keeps a numeric `distance_kpc`. -/
theorem C2_witness :
    (add_galactic_velocities id rvT [exGood, exNegPar] =
      (markAllNan [exGood, exNegPar], markAllNan [exGood, exNegPar])) ∧
    ((add_galactic_velocities id rvT [exNoRv]).1[0]? =
      some { exNoRv with
             derived := some (nanVelDerived exNoRv.base.parallax) } ∧
     nanVelDerived exNoRv.base.parallax =
       ⟨Fp.nan, Fp.nan, Fp.nan, Fp.nan, Fp.fin (1 / 2)⟩ ∧
     Fp.fin (1 / 2) ≠ Fp.nan) :=
  ⟨C2_unconvertible_rows.1 id rvT [exGood, exNegPar] exNegPar (by decide)
      (by decide),
   C2_unconvertible_rows.2 id rvT [exNoRv] [(Fp.nan, Fp.nan, Fp.nan)] 0
      exNoRv 2 (by decide) rfl rfl rfl rfl rfl rfl (by decide)⟩

/-- Counterexample to **C8** as stated: when the frame transform fails on
the nonempty table `[exGood]`, the `except` branch runs before the
internal `df.copy()`, so the NaN derived columns are written into the
caller's own object — the object after the call differs from the original
table, and the returned result is that same mutated object rather than a
new copy. -/
theorem C8_counterexample :
    (add_galactic_velocities id noneT [exGood]).2 ≠ [exGood] ∧
    (add_galactic_velocities id noneT [exGood]).2 =
      (add_galactic_velocities id noneT [exGood]).1 := by
  have h := addVel_failure_eq id noneT [exGood] (by decide) (Or.inr rfl)
  rw [h]
  exact ⟨by decide, rfl⟩

/-- **C8** (amended): on an empty table and on every batch whose transform
is attempted and returns (even with mismatched length), the caller's
table object is left unchanged — the success branch works on a copy; but
when `SkyCoord` construction or the transform itself fails (negative
distance or library failure, both before the copy), the NaN derived
columns are written into the caller's object, which is exactly the
returned result; the original columns (`base`) of each row are preserved
in all cases. -/
theorem C8_mutation_semantics :
    (∀ (s : ℚ → ℚ) (T : GalcenT),
      (add_galactic_velocities s T ([] : Df)).2 = ([] : Df)) ∧
    (∀ (s : ℚ → ℚ) (T : GalcenT) (df : Df) (vels : List (Fp × Fp × Fp)),
      (df.map (fun r => coordInOf r.base)).any (fun c => c.dist.isNegF)
          = false →
      T (df.map (fun r => coordInOf r.base)) = some vels →
      (add_galactic_velocities s T df).2 = df) ∧
    (∀ (s : ℚ → ℚ) (T : GalcenT) (df : Df),
      df.length ≠ 0 →
      ((df.map (fun r => coordInOf r.base)).any (fun c => c.dist.isNegF)
          = true
        ∨ T (df.map (fun r => coordInOf r.base)) = none) →
      (add_galactic_velocities s T df).2 = markAllNan df ∧
      (add_galactic_velocities s T df).1 =
        (add_galactic_velocities s T df).2 ∧
      (∀ (i : Nat) (r : RowV), df[i]? = some r →
        (markAllNan df)[i]? =
          some { r with derived := some allNanDerived })) := by
  refine ⟨fun s T => rfl, ?_, ?_⟩
  · intro s T df vels hneg hT
    unfold add_galactic_velocities
    by_cases h0 : df.length = 0
    · simp [h0]
    · by_cases hlen : vels.length = df.length
      · simp [h0, hneg, hT, hlen]
      · simp [h0, hneg, hT, hlen]
  · intro s T df hne h
    rw [addVel_failure_eq s T df hne h]
    refine ⟨rfl, rfl, ?_⟩
    intro i r hr
    simp [markAllNan, List.getElem?_map, hr]

unseal Rat.mul Rat.inv in
/-- Witness for C8 (amended): the success branch leaves `[exGood]`
unchanged, the failing transform mutates it. -/
theorem C8_witness :
    (add_galactic_velocities id rvT [exGood]).2 = [exGood] ∧
    ((add_galactic_velocities id noneT [exGood]).2 = markAllNan [exGood] ∧
     (add_galactic_velocities id noneT [exGood]).1 =
       (add_galactic_velocities id noneT [exGood]).2 ∧
     (∀ (i : Nat) (r : RowV), ([exGood] : Df)[i]? = some r →
       (markAllNan [exGood])[i]? =
         some { r with derived := some allNanDerived })) :=
  ⟨C8_mutation_semantics.2.1 id rvT [exGood] [(Fp.fin 5, Fp.fin 5, Fp.fin 5)]
      (by decide) rfl,
   C8_mutation_semantics.2.2 id noneT [exGood] (by decide) (Or.inr rfl)⟩

/-- `execute_adql` on a successful archive call, written out. -/
theorem execute_adql_run_ok (run : Archive) (q : String) (st : ServiceState)
    (df : Df) (h : run q = .ok df) :
    execute_adql run q st =
      (.ok ⟨df, q, df.length,
        "Query returned " ++ toString df.length ++ " rows"⟩,
       { last_result := some ⟨df, q, df.length,
        "Query returned " ++ toString df.length ++ " rows"⟩ }) := by
  unfold execute_adql
  rw [h]

/-- Every row kept by the retrograde halo selection is kept by the general
halo selection, provided the general selection is not truncated by the
limit. -/
theorem halo_select_subset (lim : Nat) (dv : Df)
    (hfit : (dv.filter halo_all_pred).length ≤ lim) :
    ∀ row ∈ halo_retrograde_select lim dv, row ∈ halo_all_select lim dv := by
  intro row hrow
  unfold halo_retrograde_select at hrow
  unfold halo_all_select
  rw [List.take_of_length_le hfit]
  have h1 : row ∈ dv.filter halo_retro_pred := List.take_subset _ _ hrow
  rw [List.mem_filter] at h1 ⊢
  refine ⟨h1.1, ?_⟩
  unfold halo_all_pred
  unfold halo_retro_pred at h1
  rw [Bool.or_eq_true]
  exact Or.inr h1.2

unseal Rat.mul Rat.inv in
/-- Counterexample to **C5** as stated: with the archive response
`[exHaloA, exHaloB]` (`V_phi` 0 and -60 under `pmraT`) and `limit = 1`,
the retrograde search returns `{2}` while the general search returns
`{1}` — because `head(limit)` truncates the two differently-ordered
filtered sets, the retrograde result is not even a subset of the general
one; and on an empty archive response the two result sets are equal, so
the subset also cannot be strict in general. -/
theorem C5_counterexample :
    resultIds (search_accreted_halo id pmraT runHalo true (some 1)
      emptySt) = [2] ∧
    resultIds (search_accreted_halo id pmraT runHalo false (some 1)
      emptySt) = [1] ∧
    (2 : Int) ∉ ([1] : List Int) ∧
    resultIds (search_accreted_halo id pmraT runEmpty true (some 1)
      emptySt) =
      resultIds (search_accreted_halo id pmraT runEmpty false (some 1)
        emptySt) := by
  refine ⟨?_, ?_, by decide, rfl⟩
  · decide
  · decide

/-- **C5** (amended): on identical archive responses and identical limit,
the retrograde accreted-halo result set is a subset (by `source_id`, not
necessarily strict) of the general result set, provided the general
selection is not truncated by `head(limit)`. -/
theorem C5_retrograde_subset (s : ℚ → ℚ) (T : GalcenT) (run : Archive)
    (limit : Option Nat) (st : ServiceState) (df : Df)
    (hrun : run (haloQueryText ((limit.getD default_query_results) * 2))
              = .ok df)
    (hfit : ((add_galactic_velocities s T df).1.filter halo_all_pred).length
              ≤ limit.getD default_query_results) :
    ∀ x ∈ resultIds (search_accreted_halo s T run true limit st),
      x ∈ resultIds (search_accreted_halo s T run false limit st) := by
  intro x hx
  simp only [search_accreted_halo, resultIds,
    execute_adql_run_ok run _ st df hrun] at hx ⊢
  by_cases hd : df.length > 0
  · simp only [hd, if_true] at hx ⊢
    obtain ⟨row, hrow, hid⟩ := List.mem_map.mp hx
    exact List.mem_map.mpr
      ⟨row, halo_select_subset _ _ hfit row hrow, hid⟩
  · simp only [hd, if_false] at hx ⊢
    exact hx

unseal Rat.mul Rat.inv in
/-- Witness for C5 (amended): with the single retrograde fixture row and
`limit = 1`, the id 2 kept by the retrograde search is in the general
result. -/
theorem C5_witness :
    (2 : Int) ∈ resultIds (search_accreted_halo id pmraT runHaloB false
      (some 1) emptySt) :=
  C5_retrograde_subset id pmraT runHaloB (some 1) emptySt [exHaloB] rfl
    (by decide) 2 (by decide)

/-- `execute_adql` packages `row_count = len(df)`. -/
theorem exec_count (run : Archive) (q : String) (st : ServiceState)
    (qr : QueryResult) (h : (execute_adql run q st).1 = .ok qr) :
    qr.row_count = qr.data.length := by
  unfold execute_adql at h
  cases hr : run q with
  | error e => rw [hr] at h; simp at h
  | ok df =>
      rw [hr] at h
      simp only [Except.ok.injEq] at h
      rw [← h]

/-- `search_cone` preserves the count invariant (it only rewrites the
description). -/
theorem cone_count (run : Archive) (ra dec radius : ℚ) (limit : Option Nat)
    (st : ServiceState) (qr : QueryResult)
    (h : (search_cone run ra dec radius limit st).1 = .ok qr) :
    qr.row_count = qr.data.length := by
  unfold search_cone at h
  cases he : execute_adql run
      (coneQueryText (limit.getD default_query_results) ra dec radius) st with
  | mk res st1 =>
      cases res with
      | error e => simp only [he] at h; simp at h
      | ok r =>
          simp only [he] at h
          simp only [Except.ok.injEq] at h
          have hc : r.row_count = r.data.length :=
            exec_count run _ st r (by rw [he])
          rw [← h]
          exact hc

/-- `search_solar_neighborhood` preserves the count invariant. -/
theorem solar_count (run : Archive) (dpc : ℚ) (limit : Option Nat)
    (st : ServiceState) (qr : QueryResult)
    (h : (search_solar_neighborhood run dpc limit st).1 = .ok qr) :
    qr.row_count = qr.data.length := by
  unfold search_solar_neighborhood at h
  cases hdiv : pyFloatDiv 1000 dpc with
  | error e => simp only [hdiv] at h; simp at h
  | ok mp =>
      simp only [hdiv] at h
      cases he : execute_adql run
          (solarQueryText (limit.getD default_query_results) mp) st with
      | mk res st1 =>
          cases res with
          | error e => simp only [he] at h; simp at h
          | ok r =>
              simp only [he] at h
              simp only [Except.ok.injEq] at h
              have hc : r.row_count = r.data.length :=
                exec_count run _ st r (by rw [he])
              rw [← h]
              exact hc

/-- `search_hypervelocity_stars` recounts after the velocity filter. -/
theorem hv_count (s : ℚ → ℚ) (T : GalcenT) (run : Archive)
    (dk mv : ℚ) (limit : Option Nat) (st : ServiceState) (qr : QueryResult)
    (h : (search_hypervelocity_stars s T run dk mv limit st).1 = .ok qr) :
    qr.row_count = qr.data.length := by
  unfold search_hypervelocity_stars at h
  cases hdiv : pyFloatDiv 1 dk with
  | error e => simp only [hdiv] at h; simp at h
  | ok mp =>
      simp only [hdiv] at h
      cases he : execute_adql run
          (hvQueryText (limit.getD (min 500 default_query_results)) mp)
          st with
      | mk res st1 =>
          cases res with
          | error e => simp only [he] at h; simp at h
          | ok r =>
              simp only [he] at h
              simp only [Except.ok.injEq] at h
              rw [← h]
              by_cases hd : r.data.length > 0
              · simp [hd]
              · simp only [hd, if_false]
                exact exec_count run _ st r (by rw [he])

/-- `search_stellar_stream` recounts after the stream filter. -/
theorem stream_count (s : ℚ → ℚ) (T : GalcenT) (run : Archive)
    (name : String) (limit : Option Nat) (st : ServiceState)
    (qr : QueryResult)
    (h : (search_stellar_stream s T run name limit st).1 = .ok qr) :
    qr.row_count = qr.data.length := by
  unfold search_stellar_stream at h
  cases hc : get_stream_criteria (pyLower name) with
  | none => simp only [hc] at h; simp at h
  | some crit =>
      simp only [hc] at h
      cases he : execute_adql run
          (streamQueryText (limit.getD default_query_results)
            crit.adql_filter) st with
      | mk res st1 =>
          cases res with
          | error e => simp only [he] at h; simp at h
          | ok r =>
              simp only [he] at h
              simp only [Except.ok.injEq] at h
              rw [← h]
              by_cases hd : r.data.length > 0
              · simp [hd]
              · simp only [hd, if_false]
                exact exec_count run _ st r (by rw [he])

/-- `search_accreted_halo` recounts after the halo selection. -/
theorem halo_count (s : ℚ → ℚ) (T : GalcenT) (run : Archive)
    (retro : Bool) (limit : Option Nat) (st : ServiceState)
    (qr : QueryResult)
    (h : (search_accreted_halo s T run retro limit st).1 = .ok qr) :
    qr.row_count = qr.data.length := by
  unfold search_accreted_halo at h
  cases he : execute_adql run
      (haloQueryText ((limit.getD default_query_results) * 2)) st with
  | mk res st1 =>
      cases res with
      | error e => simp only [he] at h; simp at h
      | ok r =>
          simp only [he] at h
          simp only [Except.ok.injEq] at h
          rw [← h]
          by_cases hd : r.data.length > 0
          · simp [hd]
          · simp only [hd, if_false]
            exact exec_count run _ st r (by rw [he])

/-- **C10**: every `QueryResult` returned by the public search operations
(`execute_adql`, `search_cone`, `search_solar_neighborhood`,
`search_hypervelocity_stars`, `search_stellar_stream`,
`search_accreted_halo`) satisfies `row_count = len(data)`, including
after post-fetch velocity filtering has removed rows. -/
theorem C10_row_count_invariant :
    (∀ (run : Archive) (q : String) (st : ServiceState) (qr : QueryResult),
      (execute_adql run q st).1 = .ok qr →
      qr.row_count = qr.data.length) ∧
    (∀ (run : Archive) (ra dec radius : ℚ) (limit : Option Nat)
        (st : ServiceState) (qr : QueryResult),
      (search_cone run ra dec radius limit st).1 = .ok qr →
      qr.row_count = qr.data.length) ∧
    (∀ (run : Archive) (dpc : ℚ) (limit : Option Nat) (st : ServiceState)
        (qr : QueryResult),
      (search_solar_neighborhood run dpc limit st).1 = .ok qr →
      qr.row_count = qr.data.length) ∧
    (∀ (s : ℚ → ℚ) (T : GalcenT) (run : Archive) (dk mv : ℚ)
        (limit : Option Nat) (st : ServiceState) (qr : QueryResult),
      (search_hypervelocity_stars s T run dk mv limit st).1 = .ok qr →
      qr.row_count = qr.data.length) ∧
    (∀ (s : ℚ → ℚ) (T : GalcenT) (run : Archive) (name : String)
        (limit : Option Nat) (st : ServiceState) (qr : QueryResult),
      (search_stellar_stream s T run name limit st).1 = .ok qr →
      qr.row_count = qr.data.length) ∧
    (∀ (s : ℚ → ℚ) (T : GalcenT) (run : Archive) (retro : Bool)
        (limit : Option Nat) (st : ServiceState) (qr : QueryResult),
      (search_accreted_halo s T run retro limit st).1 = .ok qr →
      qr.row_count = qr.data.length) :=
  ⟨exec_count, cone_count, solar_count, hv_count, stream_count, halo_count⟩

unseal Rat.mul Rat.inv in
/-- Witness for C10: the accreted-halo search on the two-row fixture with
`limit = 1` filters down to one row and reports `row_count = 1 = len`. -/
theorem C10_witness :
    ∃ qr : QueryResult,
      (search_accreted_halo id pmraT runHalo true (some 1) emptySt).1 =
        .ok qr ∧
      qr.row_count = qr.data.length ∧ qr.row_count = 1 := by
  cases hq : (search_accreted_halo id pmraT runHalo true (some 1)
      emptySt).1 with
  | error e =>
      exfalso
      have h2 : resultIds (search_accreted_halo id pmraT runHalo true
          (some 1) emptySt) = [2] := by decide
      unfold resultIds at h2
      rw [hq] at h2
      simp at h2
  | ok qr =>
      refine ⟨qr, rfl, C10_row_count_invariant.2.2.2.2.2 id pmraT runHalo
        true (some 1) emptySt qr hq, ?_⟩
      have : qr.data.map (fun x => x.base.source_id) = [2] := by
        have h2 : resultIds (search_accreted_halo id pmraT runHalo true
            (some 1) emptySt) = [2] := by decide
        unfold resultIds at h2
        rw [hq] at h2
        exact h2
      have hlen : qr.data.length = 1 := by
        have := congrArg List.length this
        simpa using this
      rw [C10_row_count_invariant.2.2.2.2.2 id pmraT runHalo true (some 1)
        emptySt qr hq]
      exact hlen
